import Mathlib

/-!
Verification development for the baseDNN core: tensor/autograd model, the
priority-based operation dispatcher, the optimizer layer and the WebGPU
accelerator backend.  Machine floats are embedded as exact rationals; C arrays
are embedded as functions from flat indices, with every loop updating exactly
the indices below the tensor's element count.
-/

namespace BaseDNN

/-! ### Tensor model (core/include/tensor.h, as used throughout src/) -/

/-- A tensor: shape, host data buffer, optional lazily allocated gradient
buffer, and the requires_grad flag.  Graph metadata (op tag, input edges) is
passed explicitly to the backward rules below instead of being stored. -/
structure Tensor where
  shape : List Nat
  data : Nat → ℚ
  grad : Option (Nat → ℚ)
  requires_grad : Bool

/-- Total element count, the product of the dimension sizes. -/
def Tensor.size (t : Tensor) : Nat := t.shape.prod

/-- Reading a gradient buffer that is allocated on first write: a NULL buffer
behaves as the zero-filled buffer calloc would produce. -/
def gradOrZero (t : Tensor) : Nat → ℚ :=
  match t.grad with
  | none => fun _ => 0
  | some g => g

/-! ### Autograd backward rules (src/unnamed/part_008)

Each C rule `backward_op(Tensor *A)` reads `A->inputs[0]`; here the input
tensor `Z` is passed explicitly and the updated `Z` is returned. -/

/-- backward_relu: Z.grad[i] += A.grad[i] * (Z.data[i] > 0 ? 1 : 0). -/
def backward_relu (A Z : Tensor) : Tensor :=
  if Z.requires_grad then
    let zg := gradOrZero Z
    let ag := gradOrZero A
    { Z with grad := some fun i =>
        if i < Z.size then zg i + ag i * (if 0 < Z.data i then 1 else 0) else zg i }
  else Z

/-- backward_sigmoid: with s = A.data[i], Z.grad[i] += A.grad[i] * s * (1 - s). -/
def backward_sigmoid (A Z : Tensor) : Tensor :=
  if Z.requires_grad then
    let zg := gradOrZero Z
    let ag := gradOrZero A
    { Z with grad := some fun i =>
        if i < Z.size then zg i + ag i * A.data i * (1 - A.data i) else zg i }
  else Z

/-- backward_tanh: with t = A.data[i], Z.grad[i] += A.grad[i] * (1 - t * t). -/
def backward_tanh (A Z : Tensor) : Tensor :=
  if Z.requires_grad then
    let zg := gradOrZero Z
    let ag := gradOrZero A
    { Z with grad := some fun i =>
        if i < Z.size then zg i + ag i * (1 - A.data i * A.data i) else zg i }
  else Z

/-- backward_softmax: the nested loop over the whole flattened tensor,
Z.grad[i] += A.grad[j] * A.data[j] * (delta_ij - A.data[i]) for every j below
Z.size, accumulated left to right as the inner C loop does. -/
def backward_softmax (A Z : Tensor) : Tensor :=
  if Z.requires_grad then
    let zg := gradOrZero Z
    let ag := gradOrZero A
    { Z with grad := some fun i =>
        if i < Z.size then
          ((List.range Z.size).foldl
            (fun acc j => acc + ag j * A.data j * ((if i = j then 1 else 0) - A.data i))
            (zg i))
        else zg i }
  else Z

/-! ### Operation registry with backend priority (src/unnamed/part_007)

The C registry is a separate-chaining hash table whose set operation replaces
the value stored under an equal key and whose get operation returns the value
stored under the key, so it implements a finite map from names to entries;
it is embedded as such a map. -/

/-- One entry of the operation registry: the winning implementation (function
pointers are embedded as numeric identifiers) and its priority. -/
structure OperationRegistryEntry where
  op_fn : Nat
  priority : Int
deriving DecidableEq, Repr

/-- The operation registry as a map from operation names to entries. -/
def OpRegistry : Type := String → Option OperationRegistryEntry

/-- The initial registry with no entry under any name. -/
def emptyOpRegistry : OpRegistry := fun _ => none

/-- registry_set: store a value under a key, replacing an equal key's value. -/
def registry_set (reg : OpRegistry) (key : String) (value : OperationRegistryEntry) :
    OpRegistry :=
  fun k => if k = key then some value else reg k

/-- register_operation_backend: install the implementation only if no entry
exists for the name yet or the new priority is strictly greater. -/
def register_operation_backend (reg : OpRegistry) (name : String) (op_fn : Nat)
    (priority : Int) : OpRegistry :=
  match reg name with
  | none => registry_set reg name ⟨op_fn, priority⟩
  | some existing =>
      if priority > existing.priority then registry_set reg name ⟨op_fn, priority⟩ else reg

/-- get_operation_fn: the implementation currently stored under the name. -/
def get_operation_fn (reg : OpRegistry) (name : String) : Option Nat :=
  (reg name).map OperationRegistryEntry.op_fn

/-- Apply a sequence of registrations (name, implementation, priority) in
order, starting from the empty registry. -/
def applyRegistrations (l : List (String × Nat × Int)) : OpRegistry :=
  l.foldl (fun reg r => register_operation_backend reg r.1 r.2.1 r.2.2) emptyOpRegistry

/-- Spec-side combining step: keep the incumbent unless the newcomer's
priority is strictly greater (ties keep the incumbent). -/
def bestStep (acc : Option OperationRegistryEntry) (fp : Nat × Int) :
    Option OperationRegistryEntry :=
  match acc with
  | none => some ⟨fp.1, fp.2⟩
  | some e => if fp.2 > e.priority then some ⟨fp.1, fp.2⟩ else some e

/-- Spec-side resolution: the first implementation attaining the running
maximum priority among all registrations seen, in order. -/
def bestEntry (l : List (Nat × Int)) : Option OperationRegistryEntry :=
  l.foldl bestStep none

/-- The (implementation, priority) pairs registered under one name, in order. -/
def entriesFor (name : String) (l : List (String × Nat × Int)) : List (Nat × Int) :=
  (l.filter fun r => r.1 == name).map fun r => r.2

/-! ### Optimizer registry and constructor (src/unnamed/part_007, src/core/src/optimizer.c) -/

/-- One entry of the optimizer registry: the three registered function
pointers, each possibly NULL. -/
structure OptimizerRegistryEntry where
  init_state_fn : Option Nat
  step_fn : Option Nat
  free_state_fn : Option Nat

/-- The optimizer registry as a map from optimizer names to entries. -/
def OptimizerRegistry : Type := String → Option OptimizerRegistryEntry

/-- get_optimizer_init_state_fn: NULL when no entry exists for the name. -/
def get_optimizer_init_state_fn (reg : OptimizerRegistry) (name : String) : Option Nat :=
  match reg name with
  | none => none
  | some e => e.init_state_fn

/-- get_optimizer_step_fn: NULL when no entry exists for the name. -/
def get_optimizer_step_fn (reg : OptimizerRegistry) (name : String) : Option Nat :=
  match reg name with
  | none => none
  | some e => e.step_fn

/-- get_optimizer_free_state_fn: NULL when no entry exists for the name. -/
def get_optimizer_free_state_fn (reg : OptimizerRegistry) (name : String) : Option Nat :=
  match reg name with
  | none => none
  | some e => e.free_state_fn

/-- A constructed optimizer (allocation is assumed to succeed). -/
structure Optimizer (σ : Type) where
  name : String
  num_parameters : Nat
  step : Nat
  free_state : Nat
  state : σ

/-- optimizer_create: NULL parameters or zero count fail first, then the three
registry lookups, then state initialization; init_state_result is the value
the registered init-state function returns for these parameters. -/
def optimizer_create {σ : Type} (reg : OptimizerRegistry)
    (parameters : Option (List Tensor)) (num_parameters : Nat)
    (config_name : String) (init_state_result : Option σ) : Option (Optimizer σ) :=
  match parameters with
  | none => none
  | some _ =>
      if num_parameters = 0 then none
      else
        match get_optimizer_init_state_fn reg config_name,
              get_optimizer_step_fn reg config_name,
              get_optimizer_free_state_fn reg config_name with
        | some _, some stepF, some freeF =>
            match init_state_result with
            | none => none
            | some st => some ⟨config_name, num_parameters, stepF, freeF, st⟩
        | _, _, _ => none

/-! ### Built-in optimizer steps (src/unnamed/part_007)

The velocity, m and v slots are tensors holding one buffer per parameter;
they are embedded as their data buffers. -/

/-- SGD state: learning rate, momentum and the per-parameter velocity slots
(allocated only when momentum is positive). -/
structure SGDState where
  learning_rate : ℚ
  momentum : ℚ
  velocity : List (Nat → ℚ)

/-- One iteration of the sgd_step parameter loop: a parameter whose gradient
buffer is NULL is skipped entirely. -/
def sgd_step_param (lr momentum : ℚ) (param : Tensor) (vel : Nat → ℚ) :
    Tensor × (Nat → ℚ) :=
  match param.grad with
  | none => (param, vel)
  | some g =>
      if 0 < momentum then
        let vel' : Nat → ℚ := fun j =>
          if j < param.size then momentum * vel j - lr * g j else vel j
        ({ param with data := fun j =>
            if j < param.size then param.data j + vel' j else param.data j }, vel')
      else
        ({ param with data := fun j =>
            if j < param.size then param.data j - lr * g j else param.data j }, vel)

/-- sgd_step over all parameters of the optimizer. -/
def sgd_step (parameters : List Tensor) (state : SGDState) : List Tensor × SGDState :=
  let stepped := (parameters.zip state.velocity).map fun pv =>
    sgd_step_param state.learning_rate state.momentum pv.1 pv.2
  (stepped.map Prod.fst, { state with velocity := stepped.map Prod.snd })

/-- Adam state: hyperparameters, the step counter t and the per-parameter
first and second moment slots. -/
structure AdamState where
  learning_rate : ℚ
  beta1 : ℚ
  beta2 : ℚ
  epsilon : ℚ
  t : Int
  m : List (Nat → ℚ)
  v : List (Nat → ℚ)

/-- One iteration of the adam_step parameter loop; sqrtA is the machine
square-root routine, kept abstract.  A parameter whose gradient buffer is
NULL is skipped entirely. -/
def adam_step_param (sqrtA : ℚ → ℚ) (lr b1 b2 eps bc1 bc2 : ℚ) (param : Tensor)
    (mi vi : Nat → ℚ) : Tensor × (Nat → ℚ) × (Nat → ℚ) :=
  match param.grad with
  | none => (param, mi, vi)
  | some g =>
      let mi' : Nat → ℚ := fun j =>
        if j < param.size then b1 * mi j + (1 - b1) * g j else mi j
      let vi' : Nat → ℚ := fun j =>
        if j < param.size then b2 * vi j + (1 - b2) * (g j * g j) else vi j
      ({ param with data := fun j =>
          if j < param.size then
            param.data j - lr * (mi' j / bc1) / (sqrtA (vi' j / bc2) + eps)
          else param.data j }, mi', vi')

/-- adam_step over all parameters: t is incremented and the bias corrections
computed once, then every parameter with a gradient is updated. -/
def adam_step (sqrtA : ℚ → ℚ) (parameters : List Tensor) (state : AdamState) :
    List Tensor × AdamState :=
  let t' := state.t + 1
  let bc1 := 1 - state.beta1 ^ t'.toNat
  let bc2 := 1 - state.beta2 ^ t'.toNat
  let stepped := (parameters.zip (state.m.zip state.v)).map fun pmv =>
    adam_step_param sqrtA state.learning_rate state.beta1 state.beta2 state.epsilon
      bc1 bc2 pmv.1 pmv.2.1 pmv.2.2
  (stepped.map Prod.fst,
   { state with t := t', m := stepped.map fun s => s.2.1, v := stepped.map fun s => s.2.2 })

/-! ### WebGPU session lifecycle (src/backend/webgpu/webgpu_backend.c)

Device handles are embedded as numeric identifiers; each bounded poll loop is
embedded by the outcome it can observe: either the callback fires within the
budget (delivering a handle or NULL), or the budget is exceeded. -/

/-- Outcome of one bounded poll loop: the budget is exceeded before the
callback sets done, or the callback completes delivering a possibly NULL
handle. -/
inductive PollOutcome (α : Type) where
  | timeout
  | completed (result : Option α)
deriving DecidableEq, Repr

/-- The process-wide singleton WebGPU context. -/
structure WebGPUContext where
  inst : Option Nat
  adapter : Option Nat
  device : Option Nat
  queue : Option Nat
  initialized : Bool
deriving DecidableEq, Repr

/-- The context value the program starts with: all handles NULL. -/
def initialCtx : WebGPUContext :=
  { inst := none, adapter := none, device := none, queue := none, initialized := false }

/-- Environment of one webgpu_init call: what instance creation returns, what
each bounded poll loop observes, and what wgpuDeviceGetQueue returns. -/
structure WGPUEnv where
  instanceResult : Option Nat
  metalAdapterPoll : PollOutcome Nat
  fallbackAdapterPoll : PollOutcome Nat
  devicePoll : PollOutcome Nat
  queueResult : Option Nat
deriving DecidableEq, Repr

/-- webgpu_init: returns 0 immediately when already initialized; otherwise
creates the instance, polls for a Metal adapter (retrying once without the
backend constraint), polls for a device, gets the queue, and on any failure
or exceeded poll budget releases what was acquired and returns -1. -/
def webgpu_init (env : WGPUEnv) (ctx : WebGPUContext) : Int × WebGPUContext :=
  if ctx.initialized then (0, ctx)
  else
    match env.instanceResult with
    | none => (-1, { ctx with inst := none })
    | some instH =>
        let ctx1 := { ctx with inst := some instH }
        let adapterResult : PollOutcome Nat :=
          match env.metalAdapterPoll with
          | .timeout => .timeout
          | .completed (some a) => .completed (some a)
          | .completed none => env.fallbackAdapterPoll
        match adapterResult with
        | .timeout => (-1, { ctx1 with inst := none })
        | .completed none => (-1, { ctx1 with inst := none })
        | .completed (some a) =>
            let ctx2 := { ctx1 with adapter := some a }
            match env.devicePoll with
            | .timeout => (-1, { ctx2 with adapter := none, inst := none })
            | .completed none => (-1, { ctx2 with adapter := none, inst := none })
            | .completed (some d) =>
                let ctx3 := { ctx2 with device := some d }
                match env.queueResult with
                | none =>
                    (-1, { ctx3 with device := none, adapter := none, inst := none })
                | some q =>
                    (0, { ctx3 with queue := some q, initialized := true })

/-- Result of webgpu_read_buffer: the destination host data after the call and
whether the timeout message was logged.  The function returns void, so no
failure is propagated in either case. -/
structure ReadBufferResult where
  host : List ℚ
  timeoutLogged : Bool
deriving DecidableEq, Repr

/-- webgpu_read_buffer: maps the staging buffer, polls with a bounded budget,
and on timeout logs and returns leaving the destination as it was; on
completion copies the mapped contents (when the mapped range is non-NULL)
into the destination. -/
def webgpu_read_buffer (available : Bool) (mapPoll : PollOutcome Unit)
    (mapped : Option (List ℚ)) (dest : List ℚ) : ReadBufferResult :=
  if available = false then ⟨dest, false⟩
  else
    match mapPoll with
    | .timeout => ⟨dest, true⟩
    | .completed _ =>
        match mapped with
        | some m => ⟨m, false⟩
        | none => ⟨dest, false⟩

/-! ### WebGPU softmax row addressing (src/backend/webgpu/webgpu_ops.c,
webgpu_tensor_softmax, and the SHADER_SOFTMAX WGSL kernel) -/

/-- Number of rows the host dispatches: shape[0]. -/
def softmaxBatch (shape : List Nat) : Nat := shape.headD 0

/-- Row length passed to the kernel: shape[ndim - 1]. -/
def softmaxRowSize (shape : List Nat) : Nat := shape.getLastD 0

/-- The row stride the host computes and uploads in the softmax uniform
block: stride starts at shape[ndim - 1], is multiplied by shape[i] for every
i from 1 to ndim - 1, then divided by shape[0] (C unsigned division). -/
def softmaxStride (shape : List Nat) : Nat :=
  (shape.drop 1).foldl (fun s d => s * d) (softmaxRowSize shape) / softmaxBatch shape

/-- The set of flat indices the softmax kernel writes: workgroup b handles
offsets b * stride + i for every i below the row size. -/
def gpuSoftmaxWriteIndices (shape : List Nat) : Finset Nat :=
  (Finset.range (softmaxBatch shape)).biUnion fun b =>
    (Finset.range (softmaxRowSize shape)).image fun i => b * softmaxStride shape + i

/-- Modelled from the spec: the reference CPU softmax (ops.c is not under
src/) normalizes each row of a 2-D [batch, features] tensor in place, row r
occupying the contiguous flat indices from r * features to
r * features + features - 1, so it writes every index below batch * features. -/
def refSoftmaxWriteIndices (shape : List Nat) : Finset Nat :=
  Finset.range (softmaxBatch shape * softmaxRowSize shape)

/-! ### WebGPU dispatch guards and fallback targets (src/backend/webgpu/webgpu_ops.c)

The guards delegate by calling the cpu_fallback function pointer; the GPU
round trip itself is kept abstract as gpu_compute. -/

/-- elementwise_binary_op: not-ready sessions, rank mismatches and
per-dimension mismatches all delegate to the cpu_fallback pointer; only fully
matching shapes on a ready session reach the GPU path. -/
def elementwise_binary_op {α : Type} (available : Bool)
    (gpu_compute cpu_fallback : Tensor → Tensor → α) (A B : Tensor) : α :=
  if available = false then cpu_fallback A B
  else if A.shape.length ≠ B.shape.length then cpu_fallback A B
  else if A.shape ≠ B.shape then cpu_fallback A B
  else gpu_compute A B

/-- webgpu_tensor_matmul guard: not-ready sessions, non-2-D operands and
inner-dimension mismatches delegate to tensor_matmul_cpu. -/
def webgpu_tensor_matmul {α : Type} (available : Bool)
    (gpu_compute cpu_fallback : Tensor → Tensor → α) (A B : Tensor) : α :=
  if available = false then cpu_fallback A B
  else if A.shape.length ≠ 2 ∨ B.shape.length ≠ 2 ∨ A.shape.getD 1 0 ≠ B.shape.getD 0 0 then
    cpu_fallback A B
  else gpu_compute A B

/-- The function a relu call is currently executing: the public dispatched
tensor_relu, the registered webgpu_tensor_relu, or the reference
tensor_relu_cpu. -/
inductive ReluCallee where
  | dispatch
  | webgpuFn
  | cpuFn
deriving DecidableEq, Repr

/-- Modelled from the spec: the dispatcher (core/src/ops.c is not under src/)
resolves the public tensor_relu to the highest-priority registered
implementation, falling back to the reference when none is registered.
webgpu_tensor_relu itself (webgpu_ops.c line 464) passes the public
tensor_relu as the cpu_fallback of elementwise_unary_op, so its not-ready
branch re-enters the dispatcher.  Fuel counts remaining call steps; none
means the fuel ran out before any result was produced. -/
def reluRun {α : Type} (webgpuRegistered available : Bool) (cpuResult gpuResult : α) :
    Nat → ReluCallee → Option α
  | 0, _ => none
  | _ + 1, .cpuFn => some cpuResult
  | n + 1, .dispatch =>
      if webgpuRegistered then reluRun webgpuRegistered available cpuResult gpuResult n .webgpuFn
      else reluRun webgpuRegistered available cpuResult gpuResult n .cpuFn
  | n + 1, .webgpuFn =>
      if available = false then
        reluRun webgpuRegistered available cpuResult gpuResult n .dispatch
      else some gpuResult

/-! ### Helper lemmas -/

theorem register_lookup_same (reg : OpRegistry) (name : String) (fn : Nat) (p : Int) :
    (register_operation_backend reg name fn p) name = bestStep (reg name) (fn, p) := by
  unfold register_operation_backend bestStep registry_set
  cases h : reg name with
  | none => simp [h]
  | some e =>
      by_cases hp : p > e.priority
      · simp [hp]
      · simp [hp, h]

theorem register_lookup_other (reg : OpRegistry) (name k : String) (fn : Nat) (p : Int)
    (hk : k ≠ name) : (register_operation_backend reg name fn p) k = reg k := by
  unfold register_operation_backend registry_set
  cases h : reg name with
  | none => simp [hk]
  | some e =>
      by_cases hp : p > e.priority
      · simp [hp, hk]
      · simp [hp]

theorem foldl_register_lookup (l : List (String × Nat × Int)) (reg : OpRegistry)
    (name : String) :
    (l.foldl (fun reg r => register_operation_backend reg r.1 r.2.1 r.2.2) reg) name =
      (entriesFor name l).foldl bestStep (reg name) := by
  induction l generalizing reg with
  | nil => simp [entriesFor]
  | cons r l ih =>
      rw [List.foldl_cons, ih]
      by_cases hr : r.1 = name
      · subst hr
        simp only [entriesFor, List.filter_cons, beq_self_eq_true, if_pos, List.map_cons]
        rw [List.foldl_cons, register_lookup_same]
      · have : (r.1 == name) = false := by simp [hr]
        simp only [entriesFor, List.filter_cons, this, List.map_cons]
        rw [register_lookup_other _ _ _ _ _ (Ne.symm hr)]
        rfl

theorem applyRegistrations_lookup (l : List (String × Nat × Int)) (name : String) :
    applyRegistrations l name = bestEntry (entriesFor name l) := by
  unfold applyRegistrations bestEntry
  rw [foldl_register_lookup]
  rfl

theorem foldl_add_range (f : Nat → ℚ) (n : Nat) (init : ℚ) :
    (List.range n).foldl (fun acc j => acc + f j) init =
      init + ∑ j in Finset.range n, f j := by
  induction n with
  | zero => simp
  | succ n ih =>
      rw [List.range_succ, List.foldl_append, ih, Finset.sum_range_succ, List.foldl_cons,
        List.foldl_nil]
      ring

theorem reluRun_cycle {α : Type} (c g : α) (n : Nat) :
    reluRun true false c g n ReluCallee.dispatch = none ∧
      reluRun true false c g n ReluCallee.webgpuFn = none := by
  induction n with
  | zero => exact ⟨rfl, rfl⟩
  | succ n ih => exact ⟨by simpa [reluRun] using ih.2, by simpa [reluRun] using ih.1⟩

/-! ### Claim theorems -/

/-- C1: the claim that every accelerated operation agrees with the reference
within tolerance fails at softmax: for a 2-D tensor of shape [2, 3] the host
computes a kernel row stride of (3 * 3) / 2 = 4 instead of 3, so the kernel's
write-index set is not the set of tensor indices: flat index 3 is never
written and flat index 6 (past the 6-element buffer) is, while the reference
softmax writes exactly indices 0..5; for the MNIST shape [64, 10] the stride
collapses to 1. -/
theorem webgpu_softmax_stride_divergence :
    softmaxStride [2, 3] = 4
  ∧ gpuSoftmaxWriteIndices [2, 3] ≠ refSoftmaxWriteIndices [2, 3]
  ∧ (3 : Nat) ∉ gpuSoftmaxWriteIndices [2, 3]
  ∧ (6 : Nat) ∈ gpuSoftmaxWriteIndices [2, 3]
  ∧ (6 : Nat) ∉ refSoftmaxWriteIndices [2, 3]
  ∧ softmaxStride [64, 10] = 1 := by
  refine ⟨by decide, by decide, by decide, by decide, by decide, by decide⟩

/-- C2: register_operation_backend installs the new implementation exactly
when no entry exists for the name or the new priority is strictly greater;
after any sequence of registrations the lookup returns the first
implementation attaining the maximum priority seen for the name, and in
particular 0 then 10 then 5 resolves to the priority-10 implementation. -/
theorem register_operation_backend_priority_law :
    (∀ (reg : OpRegistry) (name : String) (fn : Nat) (p : Int),
        get_operation_fn (register_operation_backend reg name fn p) name =
          match reg name with
          | none => some fn
          | some e => if p > e.priority then some fn else some e.op_fn)
  ∧ (∀ (l : List (String × Nat × Int)) (name : String),
        applyRegistrations l name = bestEntry (entriesFor name l))
  ∧ get_operation_fn
      (applyRegistrations [("op", 1, 0), ("op", 2, 10), ("op", 3, 5)]) "op" = some 2 := by
  refine ⟨?_, applyRegistrations_lookup, by decide⟩
  intro reg name fn p
  rw [get_operation_fn, register_lookup_same]
  unfold bestStep
  cases reg name with
  | none => rfl
  | some e =>
      by_cases hp : p > e.priority
      · simp [hp]
      · simp [hp]

/-- C3: the binary elementwise guard and the matmul guard do delegate exactly
to the cpu_fallback pointer whenever the session is not ready or the shapes
are incompatible; but for relu (likewise sigmoid and tanh) the fallback
pointer is the public dispatched tensor_relu, so with the webgpu
implementation registered and the session not available the call cycles
dispatcher to webgpu and back and never produces any result, let alone the
reference one, while an unregistered webgpu backend lets the dispatcher reach
the reference in two steps. -/
theorem webgpu_guard_delegation :
    (∀ (α : Type) (gpu cpu : Tensor → Tensor → α) (A B : Tensor) (avail : Bool),
        elementwise_binary_op avail gpu cpu A B =
          if avail = false ∨ A.shape ≠ B.shape then cpu A B else gpu A B)
  ∧ (∀ (α : Type) (gpu cpu : Tensor → Tensor → α) (A B : Tensor) (avail : Bool),
        webgpu_tensor_matmul avail gpu cpu A B =
          if avail = false ∨ A.shape.length ≠ 2 ∨ B.shape.length ≠ 2 ∨
              A.shape.getD 1 0 ≠ B.shape.getD 0 0 then cpu A B
          else gpu A B)
  ∧ (∀ (α : Type) (c g : α) (n : Nat),
        reluRun true false c g n ReluCallee.dispatch = none)
  ∧ (∀ (α : Type) (c g : α) (n : Nat) (avail : Bool),
        reluRun false avail c g (n + 2) ReluCallee.dispatch = some c) := by
  refine ⟨?_, ?_, fun α c g n => (reluRun_cycle c g n).1, ?_⟩
  · intro α gpu cpu A B avail
    unfold elementwise_binary_op
    by_cases ha : avail = false
    · simp [ha]
    · by_cases hs : A.shape = B.shape
      · simp [ha, hs]
      · by_cases hl : A.shape.length = B.shape.length
        · simp [ha, hs, hl]
        · simp [ha, hs, hl]
  · intro α gpu cpu A B avail
    unfold webgpu_tensor_matmul
    by_cases ha : avail = false
    · simp [ha]
    · by_cases hg : A.shape.length ≠ 2 ∨ B.shape.length ≠ 2 ∨
        A.shape.getD 1 0 ≠ B.shape.getD 0 0
      · simp [ha, hg]
      · simp [ha, hg]
  · intro α c g n avail
    simp [reluRun]

/-- C4 counterexample: exceeding the adapter poll budget during session
bring-up does not proceed: webgpu_init releases the instance and returns -1,
propagating the failure to its caller, with the session left uninitialized. -/
theorem webgpu_init_timeout_propagates :
    (webgpu_init
        ⟨some 0, PollOutcome.timeout, PollOutcome.timeout, PollOutcome.timeout, none⟩
        initialCtx).1 = -1
  ∧ (webgpu_init
        ⟨some 0, PollOutcome.timeout, PollOutcome.timeout, PollOutcome.timeout, none⟩
        initialCtx).2.initialized = false := ⟨rfl, rfl⟩

/-- C4 amended: exceeding the poll budget while waiting for the staging
buffer map is logged and webgpu_read_buffer returns, leaving the destination
data exactly as it was and propagating no failure; exceeding the poll budget
while acquiring the adapter or the device during session bring-up is logged
and webgpu_init returns -1 to its caller with every acquired handle
released. -/
theorem poll_budget_semantics :
    (∀ (mapped : Option (List ℚ)) (dest : List ℚ),
        webgpu_read_buffer true PollOutcome.timeout mapped dest = ⟨dest, true⟩)
  ∧ (∀ (i : Option Nat) (fp dp : PollOutcome Nat) (q : Option Nat),
        webgpu_init ⟨i, PollOutcome.timeout, fp, dp, q⟩ initialCtx = (-1, initialCtx))
  ∧ (∀ (i a : Nat) (fp : PollOutcome Nat) (q : Option Nat),
        webgpu_init ⟨some i, PollOutcome.completed (some a), fp, PollOutcome.timeout, q⟩
            initialCtx = (-1, initialCtx)) := by
  refine ⟨fun mapped dest => rfl, ?_, fun i a fp q => rfl⟩
  intro i fp dp q
  cases i with
  | none => rfl
  | some h => rfl

/-- C8: once the session context is initialized, webgpu_init returns 0
immediately and leaves the whole context, in particular the instance,
adapter, device, queue and initialized flag, unchanged. -/
theorem webgpu_init_idempotent (env : WGPUEnv) (ctx : WebGPUContext)
    (h : ctx.initialized = true) : webgpu_init env ctx = (0, ctx) := by
  unfold webgpu_init
  simp [h]

/-- A ready session context used to witness idempotence. -/
def readyCtx : WebGPUContext :=
  { inst := some 1, adapter := some 2, device := some 3, queue := some 4,
    initialized := true }

/-- Witness for C8 at a concrete ready context and environment. -/
theorem webgpu_init_idempotent_witness :
    readyCtx.initialized = true ∧
      webgpu_init
          ⟨some 9, PollOutcome.timeout, PollOutcome.timeout, PollOutcome.timeout, none⟩
          readyCtx = (0, readyCtx) :=
  ⟨rfl, webgpu_init_idempotent _ readyCtx rfl⟩

/-- C5: for a softmax output A whose input Z requires gradients,
backward_softmax adds to Z.grad[i] the sum over every flat index j of the
whole flattened tensor of A.grad[j] * A.data[j] * (delta_ij - A.data[i]);
indices at or beyond the element count are untouched. -/
theorem backward_softmax_full_contraction (A Z : Tensor) (h : Z.requires_grad = true) :
    ∃ g, (backward_softmax A Z).grad = some g
      ∧ (∀ i, i < Z.size →
          g i = gradOrZero Z i + ∑ j in Finset.range Z.size,
            gradOrZero A j * A.data j * ((if i = j then 1 else 0) - A.data i))
      ∧ ∀ i, ¬ i < Z.size → g i = gradOrZero Z i := by
  unfold backward_softmax
  rw [if_pos h]
  refine ⟨_, rfl, fun i hi => ?_, fun i hi => if_neg hi⟩
  rw [if_pos hi,
    foldl_add_range (fun j => gradOrZero A j * A.data j * ((if i = j then 1 else 0) - A.data i))]

/-- C6: for a relu output A whose input Z requires gradients, backward_relu
adds A.grad[i] to Z.grad[i] exactly at indices where the forward input
Z.data[i] is strictly positive, and adds zero elsewhere, whatever the
upstream gradient is. -/
theorem backward_relu_gate (A Z : Tensor) (h : Z.requires_grad = true) :
    ∃ g, (backward_relu A Z).grad = some g
      ∧ (∀ i, i < Z.size →
          g i = gradOrZero Z i + (if 0 < Z.data i then gradOrZero A i else 0))
      ∧ (∀ i, i < Z.size → ¬ 0 < Z.data i → g i = gradOrZero Z i)
      ∧ ∀ i, ¬ i < Z.size → g i = gradOrZero Z i := by
  unfold backward_relu
  rw [if_pos h]
  refine ⟨_, rfl, fun i hi => ?_, fun i hi hz => ?_, fun i hi => if_neg hi⟩
  · rw [if_pos hi]
    by_cases hz : 0 < Z.data i
    · rw [if_pos hz, if_pos hz, mul_one]
    · rw [if_neg hz, if_neg hz, mul_zero, add_zero]
  · rw [if_pos hi, if_neg hz, mul_zero, add_zero]

/-- C7: for sigmoid and tanh outputs A whose input Z requires gradients, the
backward rules form the local derivative from the output value A.data[i]
(s * (1 - s) and 1 - t * t respectively), and the computed gradient buffer
does not depend on the input values Z.data at all. -/
theorem backward_sigmoid_tanh_output_derivative (A Z : Tensor)
    (h : Z.requires_grad = true) :
    (∃ g, (backward_sigmoid A Z).grad = some g ∧ ∀ i, i < Z.size →
        g i = gradOrZero Z i + gradOrZero A i * A.data i * (1 - A.data i))
  ∧ (∃ g, (backward_tanh A Z).grad = some g ∧ ∀ i, i < Z.size →
        g i = gradOrZero Z i + gradOrZero A i * (1 - A.data i * A.data i))
  ∧ (∀ d : Nat → ℚ,
        (backward_sigmoid A { Z with data := d }).grad = (backward_sigmoid A Z).grad
      ∧ (backward_tanh A { Z with data := d }).grad = (backward_tanh A Z).grad) := by
  refine ⟨?_, ?_, fun d => ⟨?_, ?_⟩⟩
  · unfold backward_sigmoid
    rw [if_pos h]
    exact ⟨_, rfl, fun i hi => if_pos hi⟩
  · unfold backward_tanh
    rw [if_pos h]
    exact ⟨_, rfl, fun i hi => if_pos hi⟩
  · by_cases hr : Z.requires_grad <;> simp [backward_sigmoid, hr, Tensor.size, gradOrZero]
  · by_cases hr : Z.requires_grad <;> simp [backward_tanh, hr, Tensor.size, gradOrZero]

/-- A concrete input tensor requiring gradients, for the backward-rule
witnesses. -/
def tensorZc : Tensor :=
  { shape := [2], data := fun _ => 1, grad := none, requires_grad := true }

/-- A concrete activation-output tensor with an allocated gradient buffer,
for the backward-rule witnesses. -/
def tensorAc : Tensor :=
  { shape := [2], data := fun _ => (1 : ℚ) / 2, grad := some fun _ => 1,
    requires_grad := false }

/-- Witness for C5 at the concrete tensors. -/
theorem backward_softmax_full_contraction_witness :
    tensorZc.requires_grad = true ∧
      ∃ g, (backward_softmax tensorAc tensorZc).grad = some g
        ∧ (∀ i, i < tensorZc.size →
            g i = gradOrZero tensorZc i + ∑ j in Finset.range tensorZc.size,
              gradOrZero tensorAc j * tensorAc.data j *
                ((if i = j then 1 else 0) - tensorAc.data i))
        ∧ ∀ i, ¬ i < tensorZc.size → g i = gradOrZero tensorZc i :=
  ⟨rfl, backward_softmax_full_contraction tensorAc tensorZc rfl⟩

/-- Witness for C6 at the concrete tensors. -/
theorem backward_relu_gate_witness :
    tensorZc.requires_grad = true ∧
      ∃ g, (backward_relu tensorAc tensorZc).grad = some g
        ∧ (∀ i, i < tensorZc.size →
            g i = gradOrZero tensorZc i +
              (if 0 < tensorZc.data i then gradOrZero tensorAc i else 0))
        ∧ (∀ i, i < tensorZc.size → ¬ 0 < tensorZc.data i →
            g i = gradOrZero tensorZc i)
        ∧ ∀ i, ¬ i < tensorZc.size → g i = gradOrZero tensorZc i :=
  ⟨rfl, backward_relu_gate tensorAc tensorZc rfl⟩

/-- Witness for C7 at the concrete tensors. -/
theorem backward_sigmoid_tanh_output_derivative_witness :
    tensorZc.requires_grad = true ∧
      ((∃ g, (backward_sigmoid tensorAc tensorZc).grad = some g ∧
          ∀ i, i < tensorZc.size →
            g i = gradOrZero tensorZc i +
              gradOrZero tensorAc i * tensorAc.data i * (1 - tensorAc.data i))
      ∧ (∃ g, (backward_tanh tensorAc tensorZc).grad = some g ∧
          ∀ i, i < tensorZc.size →
            g i = gradOrZero tensorZc i +
              gradOrZero tensorAc i * (1 - tensorAc.data i * tensorAc.data i))
      ∧ (∀ d : Nat → ℚ,
            (backward_sigmoid tensorAc { tensorZc with data := d }).grad =
              (backward_sigmoid tensorAc tensorZc).grad
          ∧ (backward_tanh tensorAc { tensorZc with data := d }).grad =
              (backward_tanh tensorAc tensorZc).grad)) :=
  ⟨rfl, backward_sigmoid_tanh_output_derivative tensorAc tensorZc rfl⟩

/-- C9: optimizer_create constructs nothing exactly when the parameter array
is NULL, the parameter count is zero, any of the three registered optimizer
functions resolves to NULL, or state initialization returns NULL. -/
theorem optimizer_create_none_iff {σ : Type} (reg : OptimizerRegistry)
    (ps : Option (List Tensor)) (n : Nat) (name : String) (st : Option σ) :
    optimizer_create reg ps n name st = none ↔
      ps = none ∨ n = 0 ∨ get_optimizer_init_state_fn reg name = none ∨
        get_optimizer_step_fn reg name = none ∨
        get_optimizer_free_state_fn reg name = none ∨ st = none := by
  unfold optimizer_create
  cases ps <;> cases st <;>
    cases hI : get_optimizer_init_state_fn reg name <;>
      cases hS : get_optimizer_step_fn reg name <;>
        cases hF : get_optimizer_free_state_fn reg name <;>
          by_cases hn : n = 0 <;> simp_all

/-- C10: both optimizer steps skip every parameter whose gradient buffer is
NULL: the parameter itself (in particular its data buffer) and the optimizer
state slots at its position (velocity for SGD, m and v for Adam) are exactly
what they were before the step. -/
theorem optimizer_step_skips_null_grad (parameters : List Tensor) (sgdS : SGDState)
    (adamS : AdamState) (sqrtA : ℚ → ℚ) (i : Nat) (param : Tensor)
    (hp : parameters[i]? = some param) (hg : param.grad = none)
    (hlv : sgdS.velocity.length = parameters.length)
    (hlm : adamS.m.length = parameters.length)
    (hlvv : adamS.v.length = parameters.length) :
    ((sgd_step parameters sgdS).1[i]? = some param
      ∧ (sgd_step parameters sgdS).2.velocity[i]? = sgdS.velocity[i]?)
    ∧ ((adam_step sqrtA parameters adamS).1[i]? = some param
      ∧ (adam_step sqrtA parameters adamS).2.m[i]? = adamS.m[i]?
      ∧ (adam_step sqrtA parameters adamS).2.v[i]? = adamS.v[i]?) := by
  have hi : i < parameters.length := by
    by_contra hlt
    rw [List.getElem?_eq_none (Nat.le_of_not_lt hlt)] at hp
    exact Option.noConfusion hp
  have hiv : i < sgdS.velocity.length := by rw [hlv]; exact hi
  have him : i < adamS.m.length := by rw [hlm]; exact hi
  have hivv : i < adamS.v.length := by rw [hlvv]; exact hi
  have hw : sgdS.velocity[i]? = some (sgdS.velocity.get ⟨i, hiv⟩) := List.getElem?_eq_getElem hiv
  have hm : adamS.m[i]? = some (adamS.m.get ⟨i, him⟩) := List.getElem?_eq_getElem him
  have hv : adamS.v[i]? = some (adamS.v.get ⟨i, hivv⟩) := List.getElem?_eq_getElem hivv
  have hzip1 : (parameters.zip sgdS.velocity)[i]? = some (param, sgdS.velocity.get ⟨i, hiv⟩) :=
    List.getElem?_zip_eq_some.mpr ⟨hp, hw⟩
  have hzip2 : (adamS.m.zip adamS.v)[i]? = some (adamS.m.get ⟨i, him⟩, adamS.v.get ⟨i, hivv⟩) :=
    List.getElem?_zip_eq_some.mpr ⟨hm, hv⟩
  have hzip3 : (parameters.zip (adamS.m.zip adamS.v))[i]? =
      some (param, adamS.m.get ⟨i, him⟩, adamS.v.get ⟨i, hivv⟩) :=
    List.getElem?_zip_eq_some.mpr ⟨hp, hzip2⟩
  refine ⟨⟨?_, ?_⟩, ?_, ?_, ?_⟩
  · simp [sgd_step, List.map_map, List.getElem?_map, hzip1, sgd_step_param, hg]
  · simp [sgd_step, List.map_map, List.getElem?_map, hzip1, sgd_step_param, hg, hw]
  · simp [adam_step, List.map_map, List.getElem?_map, hzip3, adam_step_param, hg]
  · simp [adam_step, List.map_map, List.getElem?_map, hzip3, adam_step_param, hg, hm]
  · simp [adam_step, List.map_map, List.getElem?_map, hzip3, adam_step_param, hg, hv]

/-- A concrete parameter tensor whose gradient buffer is NULL, for the
optimizer-step witness. -/
def paramNoGrad : Tensor :=
  { shape := [1], data := fun _ => 2, grad := none, requires_grad := true }

/-- A concrete SGD state with one velocity slot, for the optimizer-step
witness. -/
def sgdStateC : SGDState :=
  { learning_rate := 1 / 10, momentum := 9 / 10, velocity := [fun _ => 3] }

/-- A concrete Adam state with one m slot and one v slot, for the
optimizer-step witness. -/
def adamStateC : AdamState :=
  { learning_rate := 1 / 10, beta1 := 9 / 10, beta2 := 99 / 100,
    epsilon := 1 / 100000000, t := 0, m := [fun _ => 4], v := [fun _ => 5] }

/-- Witness for C10 at a concrete one-parameter optimizer whose single
parameter has a NULL gradient buffer. -/
theorem optimizer_step_skips_null_grad_witness :
    ([paramNoGrad][0]? = some paramNoGrad ∧ paramNoGrad.grad = none
      ∧ sgdStateC.velocity.length = [paramNoGrad].length
      ∧ adamStateC.m.length = [paramNoGrad].length
      ∧ adamStateC.v.length = [paramNoGrad].length)
    ∧ (((sgd_step [paramNoGrad] sgdStateC).1[0]? = some paramNoGrad
        ∧ (sgd_step [paramNoGrad] sgdStateC).2.velocity[0]? = sgdStateC.velocity[0]?)
      ∧ ((adam_step id [paramNoGrad] adamStateC).1[0]? = some paramNoGrad
        ∧ (adam_step id [paramNoGrad] adamStateC).2.m[0]? = adamStateC.m[0]?
        ∧ (adam_step id [paramNoGrad] adamStateC).2.v[0]? = adamStateC.v[0]?)) :=
  ⟨⟨rfl, rfl, rfl, rfl, rfl⟩,
    optimizer_step_skips_null_grad [paramNoGrad] sgdStateC adamStateC id 0 paramNoGrad
      rfl rfl rfl rfl rfl⟩

end BaseDNN
